import Mathlib

/-!
Verification of the rustfeed feed aggregator (TUI client state machine and
SQLite-backed store) against its natural-language specification.

The storage layer (`crates/rustfeed-core/src/db.rs`) is a single SQLite
database; we embed each query as a pure function over an explicit table
state.  Timestamps are stored by the program as RFC3339 strings of
`DateTime<Utc>` (fixed-width, `+00:00` suffix), for which lexicographic
string comparison agrees with chronological order; we therefore model a
timestamp as a `Nat` with its usual order.  SQLite-specific semantics that
the queries rely on are modelled faithfully:
  * `LIKE` is case-insensitive on ASCII letters and treats `%`/`_` as
    wildcards (`likeM`);
  * `x LIKE p` is not-true when `x` is NULL;
  * in a `UNIQUE(feed_id, url)` constraint a NULL `url` is distinct from
    every value, including other NULLs, so rows without a URL never
    conflict;
  * `ORDER BY c DESC` puts NULLs last (NULL is smaller than every value).

The TUI client (`crates/rustfeed-tui/src/app.rs`) is embedded as a state
record `App` with one Lean function per Rust method.  External effects are
abstracted as parameters: the browser launch outcome (`Except String Unit`),
the HTML-to-text rendering of a preview (`Option String → List String`), the
network fetch of one feed (`Feed → Except String (List Article)`), and the
batch of channel messages drained in one loop iteration
(`List FetchMessage`).
-/

namespace Rustfeed

/-! ### Character and string helpers (SQLite `LIKE`, Rust `split`/`trim`) -/

/-- ASCII lower-casing, as used by SQLite's default `LIKE` comparison. -/
def asciiLower (c : Char) : Char :=
  if 'A' ≤ c ∧ c ≤ 'Z' then Char.ofNat (c.toNat + 32) else c

/-- Try a matcher on every suffix of the scrutinee (the effect of a `%`
wildcard, which absorbs any run of characters). -/
def likeStar (f : List Char → Bool) : List Char → Bool
  | [] => f []
  | c :: s => f (c :: s) || likeStar f s

/-- SQLite `LIKE` pattern matching: `%` matches any run of characters,
`_` matches one character, anything else matches itself up to ASCII case
folding.  First argument is the pattern, second the scrutinee. -/
def likeM : List Char → List Char → Bool
  | [], s => s.isEmpty
  | '%' :: p, s => likeStar (likeM p) s
  | '_' :: p, s =>
    match s with
    | [] => false
    | _ :: t => likeM p t
  | a :: p, s =>
    match s with
    | [] => false
    | c :: t => (asciiLower a == asciiLower c) && likeM p t

/-- Leading/trailing-whitespace trim of a character list (model of Rust
`str::trim` for the ASCII whitespace relevant here). -/
def trimChars (l : List Char) : List Char :=
  ((l.dropWhile Char.isWhitespace).reverse.dropWhile Char.isWhitespace).reverse

/-- Split a character list at commas (model of Rust `str::split(',')`,
which always yields at least one piece). -/
def splitComma (cur : List Char) : List Char → List (List Char)
  | [] => [cur.reverse]
  | c :: rest =>
    if c = ',' then cur.reverse :: splitComma [] rest
    else splitComma (c :: cur) rest

/-- `filter_str.split(',').map(|s| s.trim())` from `Database::get_articles`. -/
def keywordsOf (s : String) : List (List Char) :=
  (splitComma [] s.data).map trimChars

/-! ### Data model (`crates/rustfeed-core/src/models.rs`) -/

/-- A feed row (`models::Feed` / the `feeds` table). -/
structure Feed where
  id : Int
  url : String
  title : String
  description : Option String
  created_at : Nat
  updated_at : Nat
  custom_name : Option String
  category : Option String
  priority : Int
deriving DecidableEq, Repr

/-- `Feed::display_name`: the custom name if set, else the title. -/
def Feed.displayName (f : Feed) : String :=
  f.custom_name.getD f.title

/-- An article row (`models::Article` / the `articles` table). -/
structure Article where
  id : Int
  feed_id : Int
  title : String
  url : Option String
  content : Option String
  published_at : Option Nat
  is_read : Bool
  is_favorite : Bool
  created_at : Nat
deriving DecidableEq, Repr

/-- The persistent store: the two tables plus the `AUTOINCREMENT` counter
for article rowids. -/
structure DBState where
  feeds : List Feed
  articles : List Article
  nextArticleId : Int
deriving DecidableEq, Repr

/-! ### Row ordering used by the queries -/

/-- Encoding of SQLite's comparison of the nullable `published_at` column:
NULL is smaller than every value, so `none` maps below every `some`.
Comparing encodings with `<` on `Nat` is exactly the column comparison. -/
def encPub : Option Nat → Nat
  | none => 0
  | some x => x + 1

/-- `a` may precede `b` under `ORDER BY published_at DESC, created_at DESC`:
larger published timestamp first (rows without one last), ties broken by
larger creation timestamp first. -/
def rowBeforeB (a b : Article) : Bool :=
  decide (encPub b.published_at < encPub a.published_at ∨
    (encPub a.published_at = encPub b.published_at ∧ b.created_at ≤ a.created_at))

/-- Propositional form of `rowBeforeB`. -/
def rowOrder (a b : Article) : Prop := rowBeforeB a b = true

instance : DecidableRel rowOrder := fun a b => by
  unfold rowOrder; infer_instance

instance : IsTotal Article rowOrder := by
  constructor
  intro a b
  unfold rowOrder rowBeforeB
  simp only [decide_eq_true_eq]
  omega

instance : IsTrans Article rowOrder := by
  constructor
  intro a b c hab hbc
  unfold rowOrder rowBeforeB at *
  simp only [decide_eq_true_eq] at *
  omega

/-- `a` may precede `b` under `ORDER BY priority DESC, id` of `get_feeds`. -/
def feedBeforeB (a b : Feed) : Bool :=
  decide (b.priority < a.priority ∨ (a.priority = b.priority ∧ a.id ≤ b.id))

/-- Propositional form of `feedBeforeB`. -/
def feedOrder (a b : Feed) : Prop := feedBeforeB a b = true

instance : DecidableRel feedOrder := fun a b => by
  unfold feedOrder; infer_instance

instance : IsTotal Feed feedOrder := by
  constructor
  intro a b
  unfold feedOrder feedBeforeB
  simp only [decide_eq_true_eq]
  omega

instance : IsTrans Feed feedOrder := by
  constructor
  intro a b c hab hbc
  unfold feedOrder feedBeforeB at *
  simp only [decide_eq_true_eq] at *
  omega

/-! ### Store operations (`crates/rustfeed-core/src/db.rs`) -/

/-- `Database::get_feeds`: all feed rows ordered by priority descending then
id ascending, then filtered by category in Rust when one is given. -/
def getFeedsM (db : DBState) (category : Option String) : List Feed :=
  let sorted := List.insertionSort feedOrder db.feeds
  match category with
  | some cat => sorted.filter (fun f => f.category == some cat)
  | none => sorted

/-- One keyword's condition `(title LIKE ? OR content LIKE ?)` with pattern
`%keyword%`; a NULL content never matches. -/
def rowMatchesKw (kw : List Char) (a : Article) : Bool :=
  let pat := '%' :: (kw ++ ['%'])
  likeM pat a.title.data ||
    (match a.content with
     | some c => likeM pat c.data
     | none => false)

/-- The WHERE clause assembled by `Database::get_articles`. -/
def articlePasses (unreadOnly : Bool) (filter : Option String)
    (feedId : Option Int) (a : Article) : Bool :=
  (!unreadOnly || !a.is_read) &&
  (match feedId with
   | some fid => a.feed_id == fid
   | none => true) &&
  (match filter with
   | none => true
   | some fs =>
     let kws := keywordsOf fs
     if kws.isEmpty then true else kws.any (fun kw => rowMatchesKw kw a))

/-- `Database::get_articles`: WHERE filter, then
`ORDER BY published_at DESC, created_at DESC`, then `LIMIT`. -/
def getArticlesM (db : DBState) (unreadOnly : Bool) (limit : Nat)
    (filter : Option String) (feedId : Option Int) : List Article :=
  (List.insertionSort rowOrder
      (db.articles.filter (articlePasses unreadOnly filter feedId))).take limit

/-- `Database::add_article`: `INSERT OR IGNORE` under `UNIQUE(feed_id, url)`.
A conflict arises only when an existing row has the same feed id and the
same non-NULL url (SQLite UNIQUE treats NULL as distinct from everything).
Returns the updated store and `some rowid` iff a row was inserted. -/
def addArticleM (db : DBState) (a : Article) : DBState × Option Int :=
  let conflict := db.articles.any (fun r =>
    r.feed_id == a.feed_id &&
      (match r.url, a.url with
       | some u1, some u2 => u1 == u2
       | _, _ => false))
  if conflict then (db, none)
  else ({ db with
            articles := db.articles ++ [{ a with id := db.nextArticleId }],
            nextArticleId := db.nextArticleId + 1 },
        some db.nextArticleId)

/-- `Database::toggle_read_status`. -/
def toggleReadStatusM (db : DBState) (id : Int) : DBState × Bool :=
  ({ db with articles := db.articles.map (fun a =>
      if a.id = id then { a with is_read := !a.is_read } else a) },
   db.articles.any (fun a => a.id == id))

/-- `Database::mark_as_read`. -/
def markAsReadM (db : DBState) (id : Int) : DBState × Bool :=
  ({ db with articles := db.articles.map (fun a =>
      if a.id = id then { a with is_read := true } else a) },
   db.articles.any (fun a => a.id == id))

/-- `Database::add_favorite`. -/
def addFavoriteM (db : DBState) (id : Int) : DBState × Bool :=
  ({ db with articles := db.articles.map (fun a =>
      if a.id = id then { a with is_favorite := true } else a) },
   db.articles.any (fun a => a.id == id))

/-- `Database::remove_favorite`. -/
def removeFavoriteM (db : DBState) (id : Int) : DBState × Bool :=
  ({ db with articles := db.articles.map (fun a =>
      if a.id = id then { a with is_favorite := false } else a) },
   db.articles.any (fun a => a.id == id))

/-- `Database::get_article_counts`: (total, unread) for one feed. -/
def getArticleCountsM (db : DBState) (feedId : Int) : Nat × Nat :=
  (db.articles.countP (fun a => a.feed_id == feedId),
   db.articles.countP (fun a => a.feed_id == feedId && !a.is_read))

/-! ### TUI client state (`crates/rustfeed-tui/src/app.rs`) -/

/-- Progress messages of the background refresh task (`FetchMessage`). -/
inductive FetchMessage where
  | started (name : String)
  | feedDone (name : String) (newCount : Nat) (err : Option String)
  | allDone (total : Nat)
deriving DecidableEq, Repr

/-- Which pane receives directional input (`Focus`). -/
inductive Focus where
  | feeds
  | articles
deriving DecidableEq, Repr

/-- Key codes the handlers inspect (`crossterm::event::KeyCode`), with a
catch-all for every other key. -/
inductive KeyCode where
  | char (c : Char)
  | up
  | down
  | left
  | right
  | pageUp
  | pageDown
  | home
  | kEnd
  | enter
  | tab
  | esc
  | backspace
  | other
deriving DecidableEq, Repr

/-- Key modifiers; only CONTROL is ever inspected. -/
structure KeyModifiers where
  control : Bool
deriving DecidableEq, Repr

/-- The client state (`App`).  The channel receiver is modelled by the flag
`fetch_rx` (whether a receiver is installed); the batch of messages drained
in one loop iteration is a parameter of `processFetchMessages`. -/
structure App where
  db : DBState
  should_quit : Bool
  focus : Focus
  feeds : List Feed
  selected_feed : Nat
  articles : List Article
  selected_article : Nat
  status_message : Option String
  feeds_list_height : Nat
  articles_list_height : Nat
  show_preview : Bool
  preview_scroll : Nat
  preview_content : List String
  preview_height : Nat
  is_fetching : Bool
  fetch_rx : Bool
  fetching_feed : Option String
  fetch_progress : Nat × Nat
  search_mode : Bool
  search_query : String
  search_active : Bool
deriving DecidableEq, Repr

/-- `App::new`: initial state loaded from the store. -/
def mkApp (db : DBState) : App :=
  let feeds := getFeedsM db none
  let articles :=
    match feeds with
    | [] => []
    | f :: _ => getArticlesM db false 50 none (some f.id)
  { db := db
    should_quit := false
    focus := .feeds
    feeds := feeds
    selected_feed := 0
    articles := articles
    selected_article := 0
    status_message := none
    feeds_list_height := 10
    articles_list_height := 10
    show_preview := false
    preview_scroll := 0
    preview_content := []
    preview_height := 10
    is_fetching := false
    fetch_rx := false
    fetching_feed := none
    fetch_progress := (0, 0)
    search_mode := false
    search_query := ""
    search_active := false }

/-- `App::load_articles_for_selected_feed`: reload the article list for the
selected feed (50 rows, read and unread), clamping the previous article
index to the new length, or 0 when the new list is empty. -/
def loadArticlesForSelectedFeed (app : App) : App :=
  match app.feeds[app.selected_feed]? with
  | none => app
  | some feed =>
    let arts := getArticlesM app.db false 50 none (some feed.id)
    { app with
        articles := arts
        selected_article :=
          if arts.isEmpty then 0 else min app.selected_article (arts.length - 1) }

/-- `App::move_up`. -/
def moveUp (app : App) : App :=
  match app.focus with
  | .feeds =>
    if 0 < app.selected_feed then
      loadArticlesForSelectedFeed { app with selected_feed := app.selected_feed - 1 }
    else app
  | .articles =>
    if 0 < app.selected_article then
      { app with selected_article := app.selected_article - 1 }
    else app

/-- `App::move_down`. -/
def moveDown (app : App) : App :=
  match app.focus with
  | .feeds =>
    if app.selected_feed < app.feeds.length - 1 then
      loadArticlesForSelectedFeed { app with selected_feed := app.selected_feed + 1 }
    else app
  | .articles =>
    if app.selected_article < app.articles.length - 1 then
      { app with selected_article := app.selected_article + 1 }
    else app

/-- `App::page_up`: page size is the list height minus 2 (border rows). -/
def pageUp (app : App) : App :=
  match app.focus with
  | .feeds =>
    loadArticlesForSelectedFeed
      { app with selected_feed := app.selected_feed - (app.feeds_list_height - 2) }
  | .articles =>
    { app with selected_article := app.selected_article - (app.articles_list_height - 2) }

/-- `App::page_down`. -/
def pageDown (app : App) : App :=
  match app.focus with
  | .feeds =>
    let sf := min (app.selected_feed + (app.feeds_list_height - 2)) (app.feeds.length - 1)
    loadArticlesForSelectedFeed { app with selected_feed := sf }
  | .articles =>
    let sa := min (app.selected_article + (app.articles_list_height - 2)) (app.articles.length - 1)
    { app with selected_article := sa }

/-- `App::half_page_up`: half page, minimum 1. -/
def halfPageUp (app : App) : App :=
  match app.focus with
  | .feeds =>
    let sf := app.selected_feed - max ((app.feeds_list_height - 2) / 2) 1
    loadArticlesForSelectedFeed { app with selected_feed := sf }
  | .articles =>
    let sa := app.selected_article - max ((app.articles_list_height - 2) / 2) 1
    { app with selected_article := sa }

/-- `App::half_page_down`. -/
def halfPageDown (app : App) : App :=
  match app.focus with
  | .feeds =>
    let sf := min (app.selected_feed + max ((app.feeds_list_height - 2) / 2) 1) (app.feeds.length - 1)
    loadArticlesForSelectedFeed { app with selected_feed := sf }
  | .articles =>
    let sa := min (app.selected_article + max ((app.articles_list_height - 2) / 2) 1) (app.articles.length - 1)
    { app with selected_article := sa }

/-- `App::jump_to_top`. -/
def jumpToTop (app : App) : App :=
  match app.focus with
  | .feeds =>
    if app.selected_feed ≠ 0 then
      loadArticlesForSelectedFeed { app with selected_feed := 0 }
    else app
  | .articles => { app with selected_article := 0 }

/-- `App::jump_to_bottom`. -/
def jumpToBottom (app : App) : App :=
  match app.focus with
  | .feeds =>
    if app.selected_feed ≠ app.feeds.length - 1 then
      loadArticlesForSelectedFeed { app with selected_feed := app.feeds.length - 1 }
    else app
  | .articles => { app with selected_article := app.articles.length - 1 }

/-- `App::toggle_read`. -/
def toggleRead (app : App) : App :=
  match app.articles[app.selected_article]? with
  | none => app
  | some article =>
    let app1 := { app with db := (toggleReadStatusM app.db article.id).1 }
    let app2 := loadArticlesForSelectedFeed app1
    { app2 with status_message := some "Toggled read status" }

/-- `App::toggle_favorite`. -/
def toggleFavorite (app : App) : App :=
  match app.articles[app.selected_article]? with
  | none => app
  | some article =>
    let app1 :=
      if article.is_favorite then
        { app with db := (removeFavoriteM app.db article.id).1,
                   status_message := some "Removed from favorites" }
      else
        { app with db := (addFavoriteM app.db article.id).1,
                   status_message := some "Added to favorites" }
    loadArticlesForSelectedFeed app1

/-- `App::open_article_in_browser`; `openRes` is the outcome of the browser
launch (`Self::open_url`), performed only when the article has a URL. -/
def openArticleInBrowser (openRes : Except String Unit) (app : App) : App :=
  match app.articles[app.selected_article]? with
  | none => app
  | some article =>
    match article.url with
    | none => { app with status_message := some "Article has no URL" }
    | some _ =>
      match openRes with
      | .error e => { app with status_message := some ("Failed to open: " ++ e) }
      | .ok _ =>
        let app1 := { app with status_message := some "Opened in browser" }
        if !article.is_read then
          loadArticlesForSelectedFeed
            { app1 with db := (markAsReadM app1.db article.id).1 }
        else app1

/-- `App::open_preview`; `render` abstracts `html2text::from_read` at wrap
width 80 followed by the line split (the argument is the article's
content). -/
def openPreview (render : Option String → List String) (app : App) : App :=
  match app.articles[app.selected_article]? with
  | none => app
  | some article =>
    { app with
        preview_content := render article.content
        preview_scroll := 0
        show_preview := true }

/-- `App::close_preview`. -/
def closePreview (app : App) : App :=
  { app with show_preview := false, preview_content := [], preview_scroll := 0 }

/-- `App::preview_scroll_up`. -/
def previewScrollUp (lines : Nat) (app : App) : App :=
  { app with preview_scroll := app.preview_scroll - lines }

/-- `App::preview_scroll_down`: clamped to content length minus the visible
height (overlay height minus 4). -/
def previewScrollDown (lines : Nat) (app : App) : App :=
  let visible := app.preview_height - 4
  let maxScroll := app.preview_content.length - visible
  { app with preview_scroll := min (app.preview_scroll + lines) maxScroll }

/-- `App::handle_preview_key`: the preview overlay's key table. -/
def handlePreviewKey (openRes : Except String Unit) (key : KeyCode)
    (mods : KeyModifiers) (app : App) : App :=
  match key with
  | .esc | .char 'p' | .char 'q' => closePreview app
  | .up | .char 'k' => previewScrollUp 1 app
  | .down | .char 'j' => previewScrollDown 1 app
  | .pageUp => previewScrollUp (app.preview_height - 4) app
  | .pageDown => previewScrollDown (app.preview_height - 4) app
  | .char 'u' =>
    if mods.control then previewScrollUp (max ((app.preview_height - 4) / 2) 1) app
    else app
  | .char 'd' =>
    if mods.control then previewScrollDown (max ((app.preview_height - 4) / 2) 1) app
    else app
  | .char 'g' | .home => { app with preview_scroll := 0 }
  | .char 'G' | .kEnd =>
    { app with preview_scroll := app.preview_content.length - (app.preview_height - 4) }
  | .char 'o' => openArticleInBrowser openRes app
  | _ => app

/-- `App::start_search`. -/
def startSearch (app : App) : App :=
  { app with search_mode := true, search_query := "", focus := .articles }

/-- `App::execute_search`: replace the snapshot by up to 100 matches across
all feeds (no feed scoping) and reset the article cursor to 0. -/
def executeSearch (app : App) : App :=
  let arts := getArticlesM app.db false 100 (some app.search_query) none
  { app with
      articles := arts
      search_active := true
      selected_article := 0
      status_message := some
        ("Search: '" ++ app.search_query ++ "' (" ++ toString arts.length ++ " results)") }

/-- `App::clear_search`. -/
def clearSearch (app : App) : App :=
  let app1 := { app with search_active := false, search_query := "" }
  let app2 := loadArticlesForSelectedFeed app1
  { app2 with status_message := some "Search cleared" }

/-- Rust `String::pop`: drop the last character. -/
def strPop (s : String) : String := String.mk s.data.dropLast

/-- `App::handle_search_key`: the search overlay's key table. -/
def handleSearchKey (key : KeyCode) (app : App) : App :=
  match key with
  | .enter =>
    let app1 := if app.search_query ≠ "" then executeSearch app else app
    { app1 with search_mode := false }
  | .esc => { app with search_mode := false, search_query := "" }
  | .char c => { app with search_query := app.search_query.push c }
  | .backspace => { app with search_query := strPop app.search_query }
  | _ => app

/-- `App::start_fetch` (the client-side part): reject when already fetching
or when there is no feed; otherwise install the channel, raise the flag and
reset the progress counters.  The spawned task itself is `fetchTask`. -/
def startFetch (app : App) : App :=
  if app.is_fetching then
    { app with status_message := some "Already fetching..." }
  else if app.feeds.isEmpty then
    { app with status_message := some "No feeds to fetch" }
  else
    { app with
        fetch_rx := true
        is_fetching := true
        fetch_progress := (0, app.feeds.length)
        status_message := some "Starting fetch..." }

/-- One message of the drain loop in `App::process_fetch_messages`. -/
def processOneMsg (msg : FetchMessage) (app : App) : App :=
  match msg with
  | .started name =>
    { app with
        fetching_feed := some name
        status_message := some ("Fetching " ++ name ++ "...") }
  | .feedDone name newCount err =>
    let app1 := { app with fetch_progress := (app.fetch_progress.1 + 1, app.fetch_progress.2) }
    match err with
    | some e => { app1 with status_message := some (name ++ ": Error - " ++ e) }
    | none =>
      let txt := name ++ ": " ++ toString newCount ++ " new (" ++
        toString app1.fetch_progress.1 ++ "/" ++ toString app1.fetch_progress.2 ++ ")"
      { app1 with status_message := some txt }
  | .allDone total =>
    let app1 := { app with
        is_fetching := false
        fetching_feed := none
        fetch_rx := false
        status_message := some ("Fetch complete! " ++ toString total ++ " new articles")
        feeds := getFeedsM app.db none }
    loadArticlesForSelectedFeed app1

/-- `App::process_fetch_messages`: return immediately when no receiver is
installed, otherwise fold the drained batch through the message handler. -/
def processFetchMessages (msgs : List FetchMessage) (app : App) : App :=
  if app.fetch_rx then msgs.foldl (fun a m => processOneMsg m a) app else app

/-- The Left / `h` arm of the Normal-mode table. -/
def leftKey (app : App) : App :=
  let app1 := { app with focus := Focus.feeds }
  let app2 := if app1.search_active then clearSearch app1 else app1
  { app2 with status_message := some "Feeds" }

/-- The Right / `l` / Enter arm of the Normal-mode table. -/
def rightKey (app : App) : App :=
  if app.focus = Focus.feeds ∧ ¬app.feeds.isEmpty then
    let app1 := { app with focus := Focus.articles }
    let app2 :=
      if app1.search_active then clearSearch app1
      else loadArticlesForSelectedFeed app1
    { app2 with status_message := some "Articles" }
  else app

/-- The `KeyCode::Char` arms of the Normal-mode table, in source order.
The char patterns are disjoint from the structural `KeyCode` patterns, so
handling them in one sequential if-chain preserves the Rust match's
semantics (a guarded arm whose guard fails, such as plain `u` without
CONTROL, falls through to the final no-op as in the source). -/
def normalCharKey (render : Option String → List String)
    (openRes : Except String Unit) (c : Char) (mods : KeyModifiers)
    (app : App) : App :=
  if c = 'q' then { app with should_quit := true }
  else if c = 'k' then moveUp app
  else if c = 'j' then moveDown app
  else if c = 'u' then (if mods.control then halfPageUp app else app)
  else if c = 'd' then (if mods.control then halfPageDown app else app)
  else if c = 'g' then jumpToTop app
  else if c = 'G' then jumpToBottom app
  else if c = 'h' then leftKey app
  else if c = 'l' then rightKey app
  else if c = 'r' then
    (if app.focus = Focus.articles ∧ ¬app.articles.isEmpty then toggleRead app else app)
  else if c = 'f' then
    (if app.focus = Focus.articles ∧ ¬app.articles.isEmpty then toggleFavorite app else app)
  else if c = 'R' then startFetch app
  else if c = 'o' then
    (if app.focus = Focus.articles ∧ ¬app.articles.isEmpty then
       openArticleInBrowser openRes app
     else app)
  else if c = 'p' then
    (if app.focus = Focus.articles ∧ ¬app.articles.isEmpty then openPreview render app
     else app)
  else if c = '/' then startSearch app
  else app

/-- `App::handle_key`: overlay dispatch first (search, then preview), then
the Normal-mode key table. -/
def handleKey (render : Option String → List String)
    (openRes : Except String Unit) (key : KeyCode) (mods : KeyModifiers)
    (app : App) : App :=
  if app.search_mode then handleSearchKey key app
  else if app.show_preview then handlePreviewKey openRes key mods app
  else
    match key with
    | .char c => normalCharKey render openRes c mods app
    | .up => moveUp app
    | .down => moveDown app
    | .pageUp => pageUp app
    | .pageDown => pageDown app
    | .home => jumpToTop app
    | .kEnd => jumpToBottom app
    | .left => leftKey app
    | .right | .enter => rightKey app
    | .tab =>
      { app with focus := match app.focus with
          | .feeds => .articles
          | .articles => .feeds }
    | .esc => if app.search_active then clearSearch app else app
    | _ => app

/-- The key-press step of `App::run`: the global Ctrl+L screen-refresh
intercept runs before any mode dispatch, in every mode. -/
def handleKeyEvent (render : Option String → List String)
    (openRes : Except String Unit) (key : KeyCode) (mods : KeyModifiers)
    (app : App) : App :=
  if mods.control = true ∧ key = KeyCode.char 'l' then
    { app with status_message := some "Screen refreshed" }
  else handleKey render openRes key mods app

/-! ### The background refresh task (`App::start_fetch`, spawned body) -/

/-- The insertion loop over one fetched feed's entries: each entry is tagged
with the stored feed's id and inserted; only insertions that report a new
row are counted. -/
def insertAll (db : DBState) (fid : Int) : List Article → DBState × Nat
  | [] => (db, 0)
  | a :: rest =>
    let r := addArticleM db { a with feed_id := fid }
    let q := insertAll r.1 fid rest
    (q.1, (if r.2.isSome then 1 else 0) + q.2)

/-- The per-feed loop of the spawned task: for each feed send `Started`,
fetch it, insert its entries on success (counting new rows) or keep going
with an error `FeedDone` on failure.  Returns the final store, the running
total of new articles, and the messages sent. -/
def fetchLoop (fetch : Feed → Except String (List Article)) (db : DBState) :
    List Feed → DBState × Nat × List FetchMessage
  | [] => (db, 0, [])
  | f :: rest =>
    match fetch f with
    | .ok arts =>
      let r := insertAll db f.id arts
      let q := fetchLoop fetch r.1 rest
      (q.1, r.2 + q.2.1,
        .started f.displayName :: .feedDone f.displayName r.2 none :: q.2.2)
    | .error e =>
      let q := fetchLoop fetch db rest
      (q.1, q.2.1,
        .started f.displayName :: .feedDone f.displayName 0 (some e) :: q.2.2)

/-- The whole spawned task body (after its own store handle opened): the
per-feed loop followed by the final `AllDone` carrying the running total. -/
def fetchTask (fetch : Feed → Except String (List Article)) (db : DBState)
    (feeds : List Feed) : DBState × List FetchMessage :=
  ((fetchLoop fetch db feeds).1,
   (fetchLoop fetch db feeds).2.2 ++ [.allDone (fetchLoop fetch db feeds).2.1])

/-! ### Fallible-reload variants (for the failure-path claims)

`Database::get_articles` returns `Result`; the pure model above covers the
successful case.  These variants take the outcome of the storage read as an
explicit argument and mirror the same source lines including their error
handling (`?` in `load_articles_for_selected_feed`, discarded `let _ = ...`
in `move_up`). -/

/-- `App::load_articles_for_selected_feed` with the storage read's outcome
made explicit: on error the `?` operator returns before the article list is
assigned. -/
def loadArticlesRes (fetched : Except String (List Article)) (app : App) :
    Except String App :=
  match app.feeds[app.selected_feed]? with
  | none => .ok app
  | some _ =>
    match fetched with
    | .error e => .error e
    | .ok arts =>
      .ok { app with
              articles := arts
              selected_article :=
                if arts.isEmpty then 0
                else min app.selected_article (arts.length - 1) }

/-- `App::move_up` with the storage read's outcome made explicit: the feed
cursor moves first, then `let _ = self.load_articles_for_selected_feed()`
discards any error. -/
def moveUpRes (fetched : Except String (List Article)) (app : App) : App :=
  match app.focus with
  | .feeds =>
    if 0 < app.selected_feed then
      let app1 := { app with selected_feed := app.selected_feed - 1 }
      match loadArticlesRes fetched app1 with
      | .ok a => a
      | .error _ => app1
    else app
  | .articles =>
    if 0 < app.selected_article then
      { app with selected_article := app.selected_article - 1 }
    else app

/-! ### Selection-validity invariant -/

/-- A cursor is valid for a list: a real index, or 0 when the list is
empty. -/
def idxOk (i n : Nat) : Prop := i < n ∨ (n = 0 ∧ i = 0)

instance (i n : Nat) : Decidable (idxOk i n) := by
  unfold idxOk; infer_instance

/-- Both cursors are valid for their lists. -/
def selValid (app : App) : Prop :=
  idxOk app.selected_feed app.feeds.length ∧
    idxOk app.selected_article app.articles.length

instance (app : App) : Decidable (selValid app) := by
  unfold selValid; infer_instance

/-- The cached feed list is the one the store would return: true initially
(`App::new`) and maintained because no client operation writes to the
`feeds` table. -/
def feedsConsistent (app : App) : Prop :=
  app.feeds = getFeedsM app.db none

instance (app : App) : Decidable (feedsConsistent app) := by
  unfold feedsConsistent; infer_instance

/-- The reachable-state invariant used for the selection claims. -/
def AppInv (app : App) : Prop := selValid app ∧ feedsConsistent app

instance (app : App) : Decidable (AppInv app) := by
  unfold AppInv; infer_instance

/-- Decidable equality for `Except` results (used to evaluate the
fallible-reload claims on concrete inputs). -/
instance {e a : Type} [DecidableEq e] [DecidableEq a] : DecidableEq (Except e a)
  | .error x, .error y =>
    if h : x = y then .isTrue (by rw [h])
    else .isFalse (fun hc => by injection hc; exact h (by assumption))
  | .error _, .ok _ => .isFalse (fun hc => by injection hc)
  | .ok _, .error _ => .isFalse (fun hc => by injection hc)
  | .ok x, .ok y =>
    if h : x = y then .isTrue (by rw [h])
    else .isFalse (fun hc => by injection hc; exact h (by assumption))

/-! ### Spec-side comparison definitions

The next two definitions follow the specification's words, not the code;
they exist only to compare the spec's claimed behavior with the
implemented one. -/

/-- Modelled from the spec: the "published-or-created" ordering key, the
retrieval timestamp standing in for the published timestamp when the
latter is absent. -/
def specPubOrCreated (a : Article) : Nat :=
  a.published_at.getD a.created_at

/-- Modelled from the spec: case-sensitive substring containment, the
matching the spec claims for search queries. -/
def csContains (needle : List Char) : List Char → Bool
  | [] => needle.isEmpty
  | c :: s => needle.isPrefixOf (c :: s) || csContains needle s

/-! ### Concrete fixtures for counterexamples and witnesses -/

/-- Build a concrete article row. -/
def mkArticle (i fid : Int) (t : String) (u c : Option String)
    (p : Option Nat) (r : Bool) (ca : Nat) : Article :=
  { id := i, feed_id := fid, title := t, url := u, content := c,
    published_at := p, is_read := r, is_favorite := false, created_at := ca }

/-- Build a concrete feed row. -/
def mkFeed (i : Int) (u t : String) (pr : Int) : Feed :=
  { id := i, url := u, title := t, description := none, created_at := 0,
    updated_at := 0, custom_name := none, category := none, priority := pr }

/-- Store with an article lacking a published timestamp but retrieved last
(id 1), next to an older published article (id 2). -/
def dbC7 : DBState :=
  { feeds := []
    articles :=
      [mkArticle 1 1 "no-date" none none none false 10,
       mkArticle 2 1 "dated" none none (some 5) false 1]
    nextArticleId := 3 }

/-- Store with one feed and one article whose title is capitalised. -/
def dbC3 : DBState :=
  { feeds := [mkFeed 1 "http://example.org/feed" "Feed" 0]
    articles := [mkArticle 1 1 "Rust news" none none (some 5) false 1]
    nextArticleId := 2 }

/-- Client state in SearchInput mode with the lower-case query "rust". -/
def appC3 : App :=
  { mkApp dbC3 with search_mode := true, search_query := "rust", focus := .articles }

/-- An article with no URL (for the NULL-uniqueness counterexample). -/
def artC4 : Article := mkArticle 0 7 "entry" none none none false 0

/-- An article with a URL (for the amended uniqueness claim's witness). -/
def artC4w : Article :=
  mkArticle 0 7 "entry" (some "http://example.org/a") none none false 0

/-- An empty store. -/
def dbC4 : DBState := { feeds := [], articles := [], nextArticleId := 1 }

/-- Store with one feed and three articles of that feed, with distinct
published timestamps so the snapshot order is fixed. -/
def dbC10 : DBState :=
  { feeds := [mkFeed 1 "http://example.org/feed" "Feed" 0]
    articles :=
      [mkArticle 1 1 "no-url" none none (some 30) false 3,
       mkArticle 2 1 "read" (some "http://example.org/b") none (some 20) true 2,
       mkArticle 3 1 "unread" (some "http://example.org/c") none (some 10) false 1]
    nextArticleId := 4 }

/-- Client state on the article pane with `dbC10`'s snapshot loaded. -/
def appC10 : App := { mkApp dbC10 with focus := .articles }

/-- Article pane, second article selected (for the paging claim). -/
def appC8 : App := { mkApp dbC10 with focus := .articles, selected_article := 1 }

/-- SearchInput mode with an empty query buffer. -/
def appC9 : App := { mkApp dbC3 with search_mode := true }

/-- SearchInput mode with the query buffer "a" (for the overlay claim). -/
def appC5 : App := { mkApp dbC3 with search_mode := true, search_query := "a" }

/-- Preview overlay open (for the overlay claim). -/
def appC5p : App := { mkApp dbC3 with show_preview := true }

/-- Store with two feeds (for the reload-failure claim). -/
def dbC6 : DBState :=
  { feeds := [mkFeed 1 "http://example.org/f1" "F1" 1, mkFeed 2 "http://example.org/f2" "F2" 0]
    articles := [mkArticle 1 1 "a" none none none false 1]
    nextArticleId := 2 }

/-- Feed pane with the second of two feeds selected (for the reload-failure
claim). -/
def appC6 : App := { mkApp dbC6 with selected_feed := 1 }

/-- A trivial preview renderer (the rendering is an abstracted external
effect; its value is irrelevant to the claims). -/
def render0 : Option String → List String := fun _ => []

/-- A successful browser launch. -/
def openOk0 : Except String Unit := .ok ()

/-- A fetch oracle for the refresh-protocol witness: feed 1 yields one
entry, every other feed fails. -/
def fetchC2 : Feed → Except String (List Article) := fun f =>
  if f.id = 1 then .ok [artC4w] else .error "connection refused"

/-- The snapshotted feed list for the refresh-protocol witness. -/
def feedsC2 : List Feed :=
  [mkFeed 1 "http://example.org/f1" "F1" 0, mkFeed 2 "http://example.org/f2" "F2" 0]

/-! ### Frame lemmas: which fields each operation leaves unchanged -/

@[simp] theorem load_feeds (app : App) :
    (loadArticlesForSelectedFeed app).feeds = app.feeds := by
  unfold loadArticlesForSelectedFeed; split <;> rfl

@[simp] theorem load_db (app : App) :
    (loadArticlesForSelectedFeed app).db = app.db := by
  unfold loadArticlesForSelectedFeed; split <;> rfl

@[simp] theorem load_selected_feed (app : App) :
    (loadArticlesForSelectedFeed app).selected_feed = app.selected_feed := by
  unfold loadArticlesForSelectedFeed; split <;> rfl

@[simp] theorem load_search_mode (app : App) :
    (loadArticlesForSelectedFeed app).search_mode = app.search_mode := by
  unfold loadArticlesForSelectedFeed; split <;> rfl

@[simp] theorem load_show_preview (app : App) :
    (loadArticlesForSelectedFeed app).show_preview = app.show_preview := by
  unfold loadArticlesForSelectedFeed; split <;> rfl

@[simp] theorem load_search_active (app : App) :
    (loadArticlesForSelectedFeed app).search_active = app.search_active := by
  unfold loadArticlesForSelectedFeed; split <;> rfl

@[simp] theorem toggleReadStatusM_feeds (db : DBState) (i : Int) :
    ((toggleReadStatusM db i).1).feeds = db.feeds := rfl

@[simp] theorem markAsReadM_feeds (db : DBState) (i : Int) :
    ((markAsReadM db i).1).feeds = db.feeds := rfl

@[simp] theorem addFavoriteM_feeds (db : DBState) (i : Int) :
    ((addFavoriteM db i).1).feeds = db.feeds := rfl

@[simp] theorem removeFavoriteM_feeds (db : DBState) (i : Int) :
    ((removeFavoriteM db i).1).feeds = db.feeds := rfl

theorem getFeedsM_eq_of_feeds {db1 db2 : DBState} (h : db1.feeds = db2.feeds)
    (c : Option String) : getFeedsM db1 c = getFeedsM db2 c := by
  unfold getFeedsM
  rw [h]

/-- Validity of the article cursor after a reload: the clamp always lands
inside the new list (or at 0 when it is empty). -/
theorem load_selValid {app : App} (h : selValid app) :
    selValid (loadArticlesForSelectedFeed app) := by
  unfold loadArticlesForSelectedFeed
  split
  · exact h
  · rename_i feed hfeed
    refine ⟨h.1, ?_⟩
    unfold idxOk
    by_cases he : (getArticlesM app.db false 50 none (some feed.id)).isEmpty
    · simp [he, List.isEmpty_iff.mp he]
    · have hlen : (getArticlesM app.db false 50 none (some feed.id)).length ≠ 0 := by
        simpa [List.isEmpty_iff, List.length_eq_zero] using he
      simp [he]
      omega

theorem load_feedsConsistent {app : App} (h : feedsConsistent app) :
    feedsConsistent (loadArticlesForSelectedFeed app) := by
  unfold feedsConsistent
  rw [load_feeds, load_db]
  exact h

theorem load_AppInv {app : App} (h : AppInv app) :
    AppInv (loadArticlesForSelectedFeed app) :=
  ⟨load_selValid h.1, load_feedsConsistent h.2⟩


/-! ### Generic properties of `get_articles` -/

theorem getArticlesM_length_le (db : DBState) (u : Bool) (l : Nat)
    (f : Option String) (fid : Option Int) :
    (getArticlesM db u l f fid).length ≤ l := by
  unfold getArticlesM
  exact List.length_take_le _ _

theorem getArticlesM_sorted (db : DBState) (u : Bool) (l : Nat)
    (f : Option String) (fid : Option Int) :
    List.Pairwise rowOrder (getArticlesM db u l f fid) := by
  unfold getArticlesM
  exact List.Pairwise.sublist (List.take_sublist _ _)
    (List.sorted_insertionSort rowOrder _)

theorem mem_getArticlesM {db : DBState} {u : Bool} {l : Nat}
    {f : Option String} {fid : Option Int} {a : Article}
    (h : a ∈ getArticlesM db u l f fid) :
    a ∈ db.articles ∧ articlePasses u f fid a = true := by
  unfold getArticlesM at h
  have h1 := List.mem_of_mem_take h
  rw [List.mem_insertionSort] at h1
  exact List.mem_filter.mp h1

theorem splitComma_ne_nil (cur l : List Char) : splitComma cur l ≠ [] := by
  induction l generalizing cur with
  | nil => simp [splitComma]
  | cons c rest ih =>
    unfold splitComma
    split
    · simp
    · exact ih _

theorem keywordsOf_ne_nil (s : String) : keywordsOf s ≠ [] := by
  unfold keywordsOf
  intro hmap
  rw [List.map_eq_nil_iff] at hmap
  exact splitComma_ne_nil _ _ hmap

theorem articlePasses_search {q : String} {a : Article}
    (h : articlePasses false (some q) none a = true) :
    ∃ kw ∈ keywordsOf q, rowMatchesKw kw a = true := by
  unfold articlePasses at h
  simp only [Bool.not_false, Bool.true_or, Bool.true_and] at h
  rw [if_neg (by simp [List.isEmpty_iff, keywordsOf_ne_nil q])] at h
  exact List.any_eq_true.mp h

/-! ### Claim C7: ordering of `list_articles` results -/

/-- Claim C7, counterexample: the claim states results are ordered by
"published-or-created" descending (creation timestamp substituted when the
published one is absent).  On the store `dbC7`, `get_articles` returns the
old published article (key 5) before the never-published article whose
creation key is 10, because the SQL orders by `published_at DESC` with
NULLs last and never substitutes `created_at`. -/
theorem C7_counterexample :
    (getArticlesM dbC7 false 50 none none).map Article.id = [2, 1] ∧
      ¬ List.Pairwise (fun a b : Article => specPubOrCreated b ≤ specPubOrCreated a)
        (getArticlesM dbC7 false 50 none none) := by
  decide

/-- Claim C7 (amended): every `list_articles` result is ordered by
published timestamp descending with articles lacking a published timestamp
after all articles that have one, ties broken by creation timestamp
descending; the creation timestamp is never substituted for an absent
published timestamp. -/
theorem C7_list_articles_order (db : DBState) (unreadOnly : Bool)
    (limit : Nat) (filter : Option String) (feedId : Option Int) :
    List.Pairwise (fun a b : Article =>
        encPub b.published_at < encPub a.published_at ∨
          (encPub a.published_at = encPub b.published_at ∧
            b.created_at ≤ a.created_at))
      (getArticlesM db unreadOnly limit filter feedId) := by
  refine (getArticlesM_sorted db unreadOnly limit filter feedId).imp ?_
  intro a b hab
  unfold rowOrder rowBeforeB at hab
  exact of_decide_eq_true hab

/-! ### Claim C3: search execution -/

/-- Claim C3, counterexample: the claim requires every search hit to
contain a query keyword under case-sensitive containment, but the search
(executed by confirming Enter in SearchInput mode) matches via SQL `LIKE`,
which is ASCII-case-insensitive: the query "rust" returns the article
titled "Rust news", which contains no case-sensitive occurrence of any
keyword in title or content. -/
theorem C3_counterexample :
    ∃ a ∈ (handleSearchKey KeyCode.enter appC3).articles,
      ∀ kw ∈ keywordsOf appC3.search_query,
        csContains kw a.title.data = false ∧
          ∀ c, a.content = some c → csContains kw c.data = false := by
  decide

/-- Claim C3 (amended): confirming a non-empty query in SearchInput mode
replaces the snapshot by at most 100 articles drawn from the whole store
(no feed scoping), each of whose title or non-NULL content matches at
least one trimmed comma-separated keyword under ASCII-case-insensitive
`LIKE` containment, ordered by published timestamp descending with
unpublished articles last and ties by creation timestamp descending;
search becomes active, SearchInput mode ends, and the article cursor
resets to 0. -/
theorem C3_search_execution (app : App) (hq : app.search_query ≠ "") :
    (handleSearchKey KeyCode.enter app).articles.length ≤ 100 ∧
    (∀ a ∈ (handleSearchKey KeyCode.enter app).articles,
        a ∈ app.db.articles ∧
          ∃ kw ∈ keywordsOf app.search_query, rowMatchesKw kw a = true) ∧
    List.Pairwise (fun a b : Article =>
        encPub b.published_at < encPub a.published_at ∨
          (encPub a.published_at = encPub b.published_at ∧
            b.created_at ≤ a.created_at))
      (handleSearchKey KeyCode.enter app).articles ∧
    (handleSearchKey KeyCode.enter app).search_active = true ∧
    (handleSearchKey KeyCode.enter app).search_mode = false ∧
    (handleSearchKey KeyCode.enter app).selected_article = 0 := by
  have harts : (handleSearchKey KeyCode.enter app).articles =
      getArticlesM app.db false 100 (some app.search_query) none := by
    simp [handleSearchKey, if_pos hq, executeSearch]
  refine ⟨?_, ?_, ?_, ?_, ?_, ?_⟩
  · rw [harts]; exact getArticlesM_length_le _ _ _ _ _
  · rw [harts]
    intro a ha
    have := mem_getArticlesM ha
    exact ⟨this.1, articlePasses_search this.2⟩
  · rw [harts]
    refine (getArticlesM_sorted _ _ _ _ _).imp ?_
    intro a b hab
    unfold rowOrder rowBeforeB at hab
    exact of_decide_eq_true hab
  · simp [handleSearchKey, if_pos hq, executeSearch]
  · simp [handleSearchKey]
  · simp [handleSearchKey, if_pos hq, executeSearch]

/-- Witness for the amended claim C3 at a concrete state. -/
theorem C3_search_execution_witness :
    appC3.search_query ≠ "" ∧
      (handleSearchKey KeyCode.enter appC3).search_active = true ∧
      (handleSearchKey KeyCode.enter appC3).articles.length ≤ 100 :=
  ⟨by decide,
   (C3_search_execution appC3 (by decide)).2.2.2.1,
   (C3_search_execution appC3 (by decide)).1⟩

/-! ### Claim C4: idempotent article insertion -/

/-- Claim C4, counterexample: the claim quantifies over every article, but
for an article with no URL the `UNIQUE(feed_id, url)` constraint never
fires (SQLite treats NULL as distinct from everything): inserting the same
URL-less article twice into an empty store reports "inserted" both times
and the feed's article count grows by 2. -/
theorem C4_counterexample :
    (addArticleM dbC4 artC4).2 = some 1 ∧
      (addArticleM (addArticleM dbC4 artC4).1 artC4).2 ≠ none ∧
      (getArticleCountsM (addArticleM (addArticleM dbC4 artC4).1 artC4).1 artC4.feed_id).1 =
        (getArticleCountsM dbC4 artC4.feed_id).1 + 2 := by
  decide

/-- Claim C4 (amended): for an article whose URL is present and a store not
yet containing its (feed id, URL) pair, the first insert reports "inserted"
(`some` rowid), the second reports "already present" (`none`) and is a
no-op on the stored rows, and the feed's article count grows by exactly 1
across the two calls; articles with no URL bypass the uniqueness check and
are inserted unconditionally. -/
theorem C4_insert_idempotent (db : DBState) (a : Article) (u : String)
    (hu : a.url = some u)
    (hfresh : ∀ r ∈ db.articles, r.feed_id = a.feed_id → r.url ≠ some u) :
    (addArticleM db a).2 = some db.nextArticleId ∧
    (addArticleM (addArticleM db a).1 a).2 = none ∧
    (addArticleM (addArticleM db a).1 a).1 = (addArticleM db a).1 ∧
    (getArticleCountsM (addArticleM db a).1 a.feed_id).1 =
      (getArticleCountsM db a.feed_id).1 + 1 ∧
    (∀ db2 b, (b : Article).url = none →
      (addArticleM db2 b).2 = some db2.nextArticleId) := by
  have hc1 : (db.articles.any fun r =>
      r.feed_id == a.feed_id &&
        (match r.url, a.url with
         | some u1, some u2 => u1 == u2
         | _, _ => false)) = false := by
    rw [List.any_eq_false]
    intro r hr
    rw [hu]
    rcases hru : r.url with _ | u1
    · simp
    · by_cases hfe : r.feed_id = a.feed_id
      · have hne : r.url ≠ some u := hfresh r hr hfe
        rw [hru] at hne
        simp [hfe]
        intro h
        exact hne (by rw [h])
      · simp [hfe]
  have h1 : addArticleM db a =
      ({ db with
          articles := db.articles ++ [{ a with id := db.nextArticleId }],
          nextArticleId := db.nextArticleId + 1 },
        some db.nextArticleId) := by
    unfold addArticleM
    rw [if_neg (by simp [hc1])]
  have hc2 : ((db.articles ++ [{ a with id := db.nextArticleId }]).any fun r =>
      r.feed_id == a.feed_id &&
        (match r.url, a.url with
         | some u1, some u2 => u1 == u2
         | _, _ => false)) = true := by
    rw [List.any_append]
    apply Bool.or_eq_true_iff.mpr
    right
    simp [hu]
  have h2 : addArticleM (addArticleM db a).1 a = ((addArticleM db a).1, none) := by
    rw [h1]
    unfold addArticleM
    rw [if_pos (by simp only [hc2])]
  refine ⟨by rw [h1], by rw [h2], by rw [h2], ?_, ?_⟩
  · rw [h1]
    unfold getArticleCountsM
    simp [List.countP_append, List.countP_cons]
  · intro db2 b hb
    have hcf : (db2.articles.any fun r =>
        r.feed_id == b.feed_id &&
          (match r.url, b.url with
           | some u1, some u2 => u1 == u2
           | _, _ => false)) = false := by
      rw [List.any_eq_false]
      intro r hr
      rw [hb]
      rcases hru : r.url <;> simp
    unfold addArticleM
    rw [if_neg (by simp [hcf])]

/-- Witness for the amended claim C4 at a concrete article and store. -/
theorem C4_insert_idempotent_witness :
    artC4w.url = some "http://example.org/a" ∧
      (addArticleM dbC4 artC4w).2 = some dbC4.nextArticleId ∧
      (addArticleM (addArticleM dbC4 artC4w).1 artC4w).2 = none :=
  ⟨by decide,
   (C4_insert_idempotent dbC4 artC4w "http://example.org/a" (by decide)
      (by intro r hr; simp [dbC4] at hr)).1,
   (C4_insert_idempotent dbC4 artC4w "http://example.org/a" (by decide)
      (by intro r hr; simp [dbC4] at hr)).2.1⟩

/-! ### Claim C8: page-relative motion arithmetic -/

/-- Claim C8: on the article pane, paging down lands on
`min(i + P, N - 1)` and paging up on `i - P` (saturating, i.e.
`max(i - P, 0)`), where `P` is the visible row count minus 2; on an empty
list the selection stays 0. -/
theorem C8_paging (app : App) (hf : app.focus = Focus.articles) :
    (app.selected_article < app.articles.length →
      (pageDown app).selected_article =
        min (app.selected_article + (app.articles_list_height - 2))
          (app.articles.length - 1) ∧
      (pageUp app).selected_article =
        app.selected_article - (app.articles_list_height - 2)) ∧
    (app.articles = [] → app.selected_article = 0 →
      (pageDown app).selected_article = 0 ∧ (pageUp app).selected_article = 0) := by
  constructor
  · intro hlt
    constructor
    · simp [pageDown, hf]
    · simp [pageUp, hf]
  · intro hnil h0
    constructor
    · simp [pageDown, hf, hnil, h0]
    · simp [pageUp, hf, h0]

/-- Witness for claim C8 at a concrete state. -/
theorem C8_paging_witness :
    appC8.focus = Focus.articles ∧
      appC8.selected_article < appC8.articles.length ∧
      (pageDown appC8).selected_article =
        min (appC8.selected_article + (appC8.articles_list_height - 2))
          (appC8.articles.length - 1) ∧
      (pageUp appC8).selected_article =
        appC8.selected_article - (appC8.articles_list_height - 2) :=
  ⟨by decide, by decide,
   ((C8_paging appC8 (by decide)).1 (by decide)).1,
   ((C8_paging appC8 (by decide)).1 (by decide)).2⟩

/-! ### Claim C9: confirming an empty search query -/

/-- Claim C9: pressing Enter in SearchInput mode with an empty query buffer
leaves SearchInput mode without executing a search: the snapshot, the
article cursor and the search-active flag are unchanged. -/
theorem C9_empty_query_confirm (app : App) (hq : app.search_query = "") :
    (handleSearchKey KeyCode.enter app).search_mode = false ∧
    (handleSearchKey KeyCode.enter app).articles = app.articles ∧
    (handleSearchKey KeyCode.enter app).selected_article = app.selected_article ∧
    (handleSearchKey KeyCode.enter app).search_active = app.search_active := by
  simp [handleSearchKey, hq]

/-- Witness for claim C9 at a concrete state. -/
theorem C9_empty_query_confirm_witness :
    appC9.search_query = "" ∧
      (handleSearchKey KeyCode.enter appC9).search_mode = false ∧
      (handleSearchKey KeyCode.enter appC9).articles = appC9.articles :=
  ⟨by decide, (C9_empty_query_confirm appC9 (by decide)).1,
   (C9_empty_query_confirm appC9 (by decide)).2.1⟩

/-! ### Claim C10: opening the selected article in a browser -/

/-- Claim C10: the article is marked read only when it has a URL, the
launch succeeded and it was previously unread (last conjunct); when the
article has no URL, or the launch fails, or the article was already read,
only the status message changes (first three conjuncts are record-update
equalities leaving every other field, the store and the snapshot intact). -/
theorem C10_open_in_browser (app : App) (article : Article)
    (hsel : app.articles[app.selected_article]? = some article) :
    (∀ openRes, article.url = none →
      openArticleInBrowser openRes app =
        { app with status_message := some "Article has no URL" }) ∧
    (∀ u e, article.url = some u →
      openArticleInBrowser (Except.error e) app =
        { app with status_message := some ("Failed to open: " ++ e) }) ∧
    (∀ u, article.url = some u → article.is_read = true →
      openArticleInBrowser (Except.ok ()) app =
        { app with status_message := some "Opened in browser" }) ∧
    (∀ u, article.url = some u → article.is_read = false →
      openArticleInBrowser (Except.ok ()) app =
        loadArticlesForSelectedFeed
          { app with status_message := some "Opened in browser",
                     db := (markAsReadM app.db article.id).1 }) := by
  refine ⟨?_, ?_, ?_, ?_⟩
  · intro openRes hn
    simp [openArticleInBrowser, hsel, hn]
  · intro u e hu
    simp [openArticleInBrowser, hsel, hu]
  · intro u hu hr
    simp [openArticleInBrowser, hsel, hu, hr]
  · intro u hu hr
    simp [openArticleInBrowser, hsel, hu, hr]

/-- Witness for claim C10 exercising all three outcomes at concrete
states: no URL (index 0), already read (index 1), unread (index 2). -/
theorem C10_open_in_browser_witness :
    (openArticleInBrowser openOk0 appC10 =
      { appC10 with status_message := some "Article has no URL" }) ∧
    (openArticleInBrowser (Except.error "no browser") { appC10 with selected_article := 1 } =
      { appC10 with selected_article := 1,
                    status_message := some ("Failed to open: " ++ "no browser") }) ∧
    (openArticleInBrowser (Except.ok ()) { appC10 with selected_article := 1 } =
      { appC10 with selected_article := 1,
                    status_message := some "Opened in browser" }) ∧
    (openArticleInBrowser (Except.ok ()) { appC10 with selected_article := 2 } =
      loadArticlesForSelectedFeed
        { appC10 with selected_article := 2,
                      status_message := some "Opened in browser",
                      db := (markAsReadM appC10.db 3).1 }) :=
  ⟨(C10_open_in_browser appC10 (mkArticle 1 1 "no-url" none none (some 30) false 3)
      (by decide)).1 openOk0 (by decide),
   (C10_open_in_browser { appC10 with selected_article := 1 }
      (mkArticle 2 1 "read" (some "http://example.org/b") none (some 20) true 2)
      (by decide)).2.1 "http://example.org/b" "no browser" (by decide),
   (C10_open_in_browser { appC10 with selected_article := 1 }
      (mkArticle 2 1 "read" (some "http://example.org/b") none (some 20) true 2)
      (by decide)).2.2.1 "http://example.org/b" (by decide) (by decide),
   (C10_open_in_browser { appC10 with selected_article := 2 }
      (mkArticle 3 1 "unread" (some "http://example.org/c") none (some 10) false 1)
      (by decide)).2.2.2 "http://example.org/c" (by decide) (by decide)⟩

/-! ### Claim C6: failure of an article-list reload -/

/-- Claim C6, counterexample: the claim says a failed reload is surfaced
as a status message.  Moving the feed cursor up with a failing storage
read leaves the status line untouched (`none`): the error is silently
discarded by `let _ = ...`, after the cursor already moved; the raw
reload itself propagates the error instead of recording a message. -/
theorem C6_counterexample :
    (moveUpRes (Except.error "disk error") appC6).status_message = none ∧
    (moveUpRes (Except.error "disk error") appC6).selected_feed = 0 ∧
    loadArticlesRes (Except.error "disk error") { appC6 with selected_feed := 0 } =
      Except.error "disk error" := by
  decide

/-- Claim C6 (amended): a failed storage read during a reload leaves the
article list, the article cursor and the status message exactly as they
were (the snapshot assignment happens only on success, and the cursor
movement that triggered the reload is kept); the failure is not surfaced
as a status message — in cursor-movement paths it is silently discarded,
and `load_articles_for_selected_feed` itself propagates the raw error to
its caller. -/
theorem C6_reload_failure (app : App) (e : String) :
    (app.focus = Focus.feeds →
      (moveUpRes (Except.error e) app).articles = app.articles ∧
      (moveUpRes (Except.error e) app).selected_article = app.selected_article ∧
      (moveUpRes (Except.error e) app).status_message = app.status_message ∧
      (moveUpRes (Except.error e) app).selected_feed = app.selected_feed - 1) ∧
    (∀ f, app.feeds[app.selected_feed]? = some f →
      loadArticlesRes (Except.error e) app = Except.error e) := by
  constructor
  · intro hf
    unfold moveUpRes
    rw [hf]
    by_cases h0 : 0 < app.selected_feed
    · rw [if_pos h0]
      unfold loadArticlesRes
      cases hg : app.feeds[app.selected_feed - 1]? <;> simp [hg]
    · rw [if_neg h0]
      have h1 : app.selected_feed - 1 = app.selected_feed := by omega
      simp [h1]
  · intro f hf
    unfold loadArticlesRes
    rw [hf]

/-- Witness for the amended claim C6 at a concrete state. -/
theorem C6_reload_failure_witness :
    appC6.focus = Focus.feeds ∧
      (moveUpRes (Except.error "disk error") appC6).articles = appC6.articles ∧
      (moveUpRes (Except.error "disk error") appC6).status_message = appC6.status_message ∧
      (moveUpRes (Except.error "disk error") appC6).selected_feed = appC6.selected_feed - 1 :=
  ⟨by decide,
   ((C6_reload_failure appC6 "disk error").1 (by decide)).1,
   ((C6_reload_failure appC6 "disk error").1 (by decide)).2.2.1,
   ((C6_reload_failure appC6 "disk error").1 (by decide)).2.2.2⟩

/-! ### Overlay-flag frame lemmas -/

@[simp] theorem executeSearch_search_mode (app : App) :
    (executeSearch app).search_mode = app.search_mode := rfl

@[simp] theorem executeSearch_show_preview (app : App) :
    (executeSearch app).show_preview = app.show_preview := rfl

@[simp] theorem clearSearch_search_mode (app : App) :
    (clearSearch app).search_mode = app.search_mode := by
  unfold clearSearch
  simp

@[simp] theorem clearSearch_show_preview (app : App) :
    (clearSearch app).show_preview = app.show_preview := by
  unfold clearSearch
  simp

@[simp] theorem moveUp_search_mode (app : App) :
    (moveUp app).search_mode = app.search_mode := by
  unfold moveUp
  split <;> split <;> simp

@[simp] theorem moveDown_search_mode (app : App) :
    (moveDown app).search_mode = app.search_mode := by
  unfold moveDown
  split <;> split <;> simp

@[simp] theorem pageUp_search_mode (app : App) :
    (pageUp app).search_mode = app.search_mode := by
  unfold pageUp
  split <;> simp

@[simp] theorem pageDown_search_mode (app : App) :
    (pageDown app).search_mode = app.search_mode := by
  unfold pageDown
  split <;> simp

@[simp] theorem halfPageUp_search_mode (app : App) :
    (halfPageUp app).search_mode = app.search_mode := by
  unfold halfPageUp
  split <;> simp

@[simp] theorem halfPageDown_search_mode (app : App) :
    (halfPageDown app).search_mode = app.search_mode := by
  unfold halfPageDown
  split <;> simp

@[simp] theorem jumpToTop_search_mode (app : App) :
    (jumpToTop app).search_mode = app.search_mode := by
  unfold jumpToTop
  split <;> (try split) <;> simp

@[simp] theorem jumpToBottom_search_mode (app : App) :
    (jumpToBottom app).search_mode = app.search_mode := by
  unfold jumpToBottom
  split <;> (try split) <;> simp

@[simp] theorem toggleRead_search_mode (app : App) :
    (toggleRead app).search_mode = app.search_mode := by
  unfold toggleRead
  split <;> simp

@[simp] theorem toggleFavorite_search_mode (app : App) :
    (toggleFavorite app).search_mode = app.search_mode := by
  unfold toggleFavorite
  split <;> (try split) <;> simp

@[simp] theorem startFetch_search_mode (app : App) :
    (startFetch app).search_mode = app.search_mode := by
  unfold startFetch
  split <;> (try split) <;> simp

@[simp] theorem openArticleInBrowser_search_mode (openRes : Except String Unit) (app : App) :
    (openArticleInBrowser openRes app).search_mode = app.search_mode := by
  unfold openArticleInBrowser
  split <;> (try split) <;> (try split) <;> (try split) <;> simp

@[simp] theorem openPreview_search_mode (render : Option String → List String) (app : App) :
    (openPreview render app).search_mode = app.search_mode := by
  unfold openPreview
  split <;> simp

@[simp] theorem startSearch_show_preview (app : App) :
    (startSearch app).show_preview = app.show_preview := rfl

/-- The search overlay's key table never touches the preview overlay. -/
theorem handleSearchKey_show_preview (key : KeyCode) (app : App) :
    (handleSearchKey key app).show_preview = app.show_preview := by
  unfold handleSearchKey
  split <;> (try split) <;> simp

set_option maxHeartbeats 2000000 in
/-- The preview overlay's key table never touches the search overlay. -/
theorem handlePreviewKey_search_mode (openRes : Except String Unit)
    (key : KeyCode) (mods : KeyModifiers) (app : App) :
    (handlePreviewKey openRes key mods app).search_mode = app.search_mode := by
  unfold handlePreviewKey
  split <;> (try split) <;>
    simp [closePreview, previewScrollUp, previewScrollDown]

@[simp] theorem processOneMsg_search_mode (msg : FetchMessage) (app : App) :
    (processOneMsg msg app).search_mode = app.search_mode := by
  cases msg with
  | started n => rfl
  | feedDone n c err => cases err <;> rfl
  | allDone t => simp [processOneMsg]

@[simp] theorem processOneMsg_show_preview (msg : FetchMessage) (app : App) :
    (processOneMsg msg app).show_preview = app.show_preview := by
  cases msg with
  | started n => rfl
  | feedDone n c err => cases err <;> rfl
  | allDone t => simp [processOneMsg]

theorem foldl_processOneMsg_search_mode (msgs : List FetchMessage) :
    ∀ app : App,
      (msgs.foldl (fun a m => processOneMsg m a) app).search_mode = app.search_mode := by
  induction msgs with
  | nil => intro app; rfl
  | cons m rest ih =>
    intro app
    simp only [List.foldl_cons]
    rw [ih, processOneMsg_search_mode]

theorem foldl_processOneMsg_show_preview (msgs : List FetchMessage) :
    ∀ app : App,
      (msgs.foldl (fun a m => processOneMsg m a) app).show_preview = app.show_preview := by
  induction msgs with
  | nil => intro app; rfl
  | cons m rest ih =>
    intro app
    simp only [List.foldl_cons]
    rw [ih, processOneMsg_show_preview]

theorem processFetchMessages_search_mode (msgs : List FetchMessage) (app : App) :
    (processFetchMessages msgs app).search_mode = app.search_mode := by
  unfold processFetchMessages
  split
  · exact foldl_processOneMsg_search_mode msgs app
  · rfl

theorem processFetchMessages_show_preview (msgs : List FetchMessage) (app : App) :
    (processFetchMessages msgs app).show_preview = app.show_preview := by
  unfold processFetchMessages
  split
  · exact foldl_processOneMsg_show_preview msgs app
  · rfl

@[simp] theorem leftKey_search_mode (app : App) :
    (leftKey app).search_mode = app.search_mode := by
  simp [leftKey, apply_ite]

@[simp] theorem rightKey_search_mode (app : App) :
    (rightKey app).search_mode = app.search_mode := by
  simp [rightKey, apply_ite]

set_option maxHeartbeats 1600000 in
/-- Every `Char` arm of the Normal-mode table either leaves `search_mode`
unchanged or leaves `show_preview` unchanged. -/
theorem normalCharKey_overlay (render : Option String → List String)
    (openRes : Except String Unit) (c : Char) (mods : KeyModifiers) (app : App) :
    (normalCharKey render openRes c mods app).search_mode = app.search_mode ∨
      (normalCharKey render openRes c mods app).show_preview = app.show_preview := by
  unfold normalCharKey
  by_cases h1 : c = 'q'
  · rw [if_pos h1]
    exact Or.inl rfl
  rw [if_neg h1]
  by_cases h2 : c = 'k'
  · rw [if_pos h2]
    exact Or.inl (moveUp_search_mode app)
  rw [if_neg h2]
  by_cases h3 : c = 'j'
  · rw [if_pos h3]
    exact Or.inl (moveDown_search_mode app)
  rw [if_neg h3]
  by_cases h4 : c = 'u'
  · rw [if_pos h4]
    exact Or.inl (by split <;> simp)
  rw [if_neg h4]
  by_cases h5 : c = 'd'
  · rw [if_pos h5]
    exact Or.inl (by split <;> simp)
  rw [if_neg h5]
  by_cases h6 : c = 'g'
  · rw [if_pos h6]
    exact Or.inl (jumpToTop_search_mode app)
  rw [if_neg h6]
  by_cases h7 : c = 'G'
  · rw [if_pos h7]
    exact Or.inl (jumpToBottom_search_mode app)
  rw [if_neg h7]
  by_cases h8 : c = 'h'
  · rw [if_pos h8]
    exact Or.inl (leftKey_search_mode app)
  rw [if_neg h8]
  by_cases h9 : c = 'l'
  · rw [if_pos h9]
    exact Or.inl (rightKey_search_mode app)
  rw [if_neg h9]
  by_cases h10 : c = 'r'
  · rw [if_pos h10]
    exact Or.inl (by split <;> simp)
  rw [if_neg h10]
  by_cases h11 : c = 'f'
  · rw [if_pos h11]
    exact Or.inl (by split <;> simp)
  rw [if_neg h11]
  by_cases h12 : c = 'R'
  · rw [if_pos h12]
    exact Or.inl (startFetch_search_mode app)
  rw [if_neg h12]
  by_cases h13 : c = 'o'
  · rw [if_pos h13]
    exact Or.inl (by split <;> simp)
  rw [if_neg h13]
  by_cases h14 : c = 'p'
  · rw [if_pos h14]
    exact Or.inl (by split <;> simp)
  rw [if_neg h14]
  by_cases h15 : c = '/'
  · rw [if_pos h15]
    exact Or.inr (startSearch_show_preview app)
  rw [if_neg h15]
  exact Or.inl rfl

set_option maxHeartbeats 1600000 in
/-- In the Normal-mode table (both overlay flags off), every binding either
leaves `search_mode` off or leaves `show_preview` off. -/
theorem handleKey_normal_overlay (render : Option String → List String)
    (openRes : Except String Unit) (key : KeyCode) (mods : KeyModifiers)
    (app : App) (hsm : app.search_mode = false) (hsp : app.show_preview = false) :
    (handleKey render openRes key mods app).search_mode = false ∨
      (handleKey render openRes key mods app).show_preview = false := by
  unfold handleKey
  rw [hsm, hsp]
  simp only [Bool.false_eq_true, if_false]
  cases key
  case char c =>
    show (normalCharKey render openRes c mods app).search_mode = false ∨
      (normalCharKey render openRes c mods app).show_preview = false
    rcases normalCharKey_overlay render openRes c mods app with h | h
    · exact Or.inl (h.trans hsm)
    · exact Or.inr (h.trans hsp)
  all_goals simp [hsm, hsp, apply_ite]

/-! ### Claim C5: overlay exclusivity -/

/-- Claim C5, counterexample: the claim says that while an overlay is
active every key press is dispatched exclusively through the overlay's own
key table.  But the run loop intercepts Ctrl+L before any mode dispatch:
in SearchInput mode, Ctrl+L triggers the global clear-screen binding
(status becomes "Screen refreshed") instead of reaching the search table,
which would have appended the character to the query buffer. -/
theorem C5_counterexample :
    appC5.search_mode = true ∧
      handleKeyEvent render0 openOk0 (KeyCode.char 'l') { control := true } appC5 ≠
        handleSearchKey (KeyCode.char 'l') appC5 ∧
      (handleKeyEvent render0 openOk0 (KeyCode.char 'l') { control := true } appC5).status_message =
        some "Screen refreshed" ∧
      (handleKeyEvent render0 openOk0 (KeyCode.char 'l') { control := true } appC5).search_query = "a" ∧
      (handleSearchKey (KeyCode.char 'l') appC5).search_query = "al" := by
  decide

/-- Claim C5 (amended): at most one overlay is ever active (the flag pair
is exclusive initially and preserved by every key event and by the message
drain), and apart from the global Ctrl+L screen-refresh intercept of the
run loop — which fires in every mode and only sets the status message —
every key press with an overlay active is dispatched exclusively through
that overlay's own key table, never through the Normal-mode table. -/
theorem C5_overlay_exclusivity (render : Option String → List String)
    (openRes : Except String Unit) (key : KeyCode) (mods : KeyModifiers)
    (app : App) :
    (¬(app.search_mode = true ∧ app.show_preview = true) →
      ¬((handleKeyEvent render openRes key mods app).search_mode = true ∧
        (handleKeyEvent render openRes key mods app).show_preview = true)) ∧
    (∀ db, (mkApp db).search_mode = false ∧ (mkApp db).show_preview = false) ∧
    (∀ msgs, (processFetchMessages msgs app).search_mode = app.search_mode ∧
      (processFetchMessages msgs app).show_preview = app.show_preview) ∧
    (app.search_mode = true → ¬(mods.control = true ∧ key = KeyCode.char 'l') →
      handleKeyEvent render openRes key mods app = handleSearchKey key app) ∧
    (app.search_mode = false → app.show_preview = true →
      ¬(mods.control = true ∧ key = KeyCode.char 'l') →
      handleKeyEvent render openRes key mods app = handlePreviewKey openRes key mods app) ∧
    (mods.control = true → key = KeyCode.char 'l' →
      (handleKeyEvent render openRes key mods app).search_query = app.search_query ∧
      (handleKeyEvent render openRes key mods app).status_message = some "Screen refreshed") := by
  refine ⟨?_, ?_, ?_, ?_, ?_, ?_⟩
  · intro hno
    unfold handleKeyEvent
    by_cases hcl : mods.control = true ∧ key = KeyCode.char 'l'
    · rw [if_pos hcl]
      intro hb
      exact hno ⟨hb.1, hb.2⟩
    · rw [if_neg hcl]
      by_cases hsm : app.search_mode = true
      · have hsp : app.show_preview = false := by
          cases hspv : app.show_preview
          · rfl
          · exact absurd ⟨hsm, hspv⟩ hno
        have he : handleKey render openRes key mods app = handleSearchKey key app := by
          unfold handleKey
          rw [if_pos hsm]
        rw [he]
        intro hb
        have h2 := hb.2
        rw [handleSearchKey_show_preview, hsp] at h2
        exact Bool.noConfusion h2
      · have hsm' : app.search_mode = false := by
          revert hsm
          cases app.search_mode <;> simp
        by_cases hsp : app.show_preview = true
        · have he : handleKey render openRes key mods app =
              handlePreviewKey openRes key mods app := by
            unfold handleKey
            rw [hsm', hsp]
            simp
          rw [he]
          intro hb
          have h1 := hb.1
          rw [handlePreviewKey_search_mode, hsm'] at h1
          exact Bool.noConfusion h1
        · have hsp' : app.show_preview = false := by
            revert hsp
            cases app.show_preview <;> simp
          intro hb
          rcases handleKey_normal_overlay render openRes key mods app hsm' hsp' with h | h
          · rw [hb.1] at h
            exact Bool.noConfusion h
          · rw [hb.2] at h
            exact Bool.noConfusion h
  · intro db
    exact ⟨rfl, rfl⟩
  · intro msgs
    exact ⟨processFetchMessages_search_mode msgs app,
      processFetchMessages_show_preview msgs app⟩
  · intro hsm hnl
    unfold handleKeyEvent
    rw [if_neg hnl]
    unfold handleKey
    rw [if_pos hsm]
  · intro hsm hsp hnl
    unfold handleKeyEvent
    rw [if_neg hnl]
    unfold handleKey
    rw [hsm, hsp]
    simp
  · intro hc hk
    unfold handleKeyEvent
    rw [if_pos ⟨hc, hk⟩]
    exact ⟨rfl, rfl⟩

/-- Witness for the amended claim C5 at concrete states: a plain key in
SearchInput mode goes through the search table; a plain key in Preview
mode goes through the preview table. -/
theorem C5_overlay_exclusivity_witness :
    appC5.search_mode = true ∧
      handleKeyEvent render0 openOk0 (KeyCode.char 'x') { control := false } appC5 =
        handleSearchKey (KeyCode.char 'x') appC5 ∧
      appC5p.show_preview = true ∧
      handleKeyEvent render0 openOk0 KeyCode.esc { control := false } appC5p =
        handlePreviewKey openOk0 KeyCode.esc { control := false } appC5p :=
  ⟨by decide,
   (C5_overlay_exclusivity render0 openOk0 (KeyCode.char 'x') { control := false }
      appC5).2.2.2.1 (by decide) (by decide),
   by decide,
   (C5_overlay_exclusivity render0 openOk0 KeyCode.esc { control := false }
      appC5p).2.2.2.2.1 (by decide) (by decide) (by decide)⟩

/-! ### Claim C1: selection-validity invariant -/

theorem AppInv_set_feed {app : App} (h : AppInv app) {n : Nat}
    (hn : idxOk n app.feeds.length) :
    AppInv { app with selected_feed := n } :=
  ⟨⟨hn, h.1.2⟩, h.2⟩

theorem AppInv_set_article {app : App} (h : AppInv app) {n : Nat}
    (hn : idxOk n app.articles.length) :
    AppInv { app with selected_article := n } :=
  ⟨⟨h.1.1, hn⟩, h.2⟩

theorem moveUp_AppInv {app : App} (h : AppInv app) : AppInv (moveUp app) := by
  unfold moveUp
  split
  · split
    · refine load_AppInv (AppInv_set_feed h ?_)
      have := h.1.1
      unfold idxOk at *
      omega
    · exact h
  · split
    · refine AppInv_set_article h ?_
      have := h.1.2
      unfold idxOk at *
      omega
    · exact h

theorem moveDown_AppInv {app : App} (h : AppInv app) : AppInv (moveDown app) := by
  unfold moveDown
  split
  · split
    · rename_i h0
      refine load_AppInv (AppInv_set_feed h ?_)
      unfold idxOk
      omega
    · exact h
  · split
    · rename_i h0
      refine AppInv_set_article h ?_
      unfold idxOk
      omega
    · exact h

theorem pageUp_AppInv {app : App} (h : AppInv app) : AppInv (pageUp app) := by
  unfold pageUp
  split
  · refine load_AppInv (AppInv_set_feed h ?_)
    have := h.1.1
    unfold idxOk at *
    omega
  · refine AppInv_set_article h ?_
    have := h.1.2
    unfold idxOk at *
    omega

theorem pageDown_AppInv {app : App} (h : AppInv app) : AppInv (pageDown app) := by
  unfold pageDown
  split
  · refine load_AppInv (AppInv_set_feed h ?_)
    have := h.1.1
    unfold idxOk at *
    omega
  · refine AppInv_set_article h ?_
    have := h.1.2
    unfold idxOk at *
    omega

theorem halfPageUp_AppInv {app : App} (h : AppInv app) : AppInv (halfPageUp app) := by
  unfold halfPageUp
  split
  · refine load_AppInv (AppInv_set_feed h ?_)
    have := h.1.1
    unfold idxOk at *
    omega
  · refine AppInv_set_article h ?_
    have := h.1.2
    unfold idxOk at *
    omega

theorem halfPageDown_AppInv {app : App} (h : AppInv app) : AppInv (halfPageDown app) := by
  unfold halfPageDown
  split
  · refine load_AppInv (AppInv_set_feed h ?_)
    have := h.1.1
    unfold idxOk at *
    omega
  · refine AppInv_set_article h ?_
    have := h.1.2
    unfold idxOk at *
    omega

theorem jumpToTop_AppInv {app : App} (h : AppInv app) : AppInv (jumpToTop app) := by
  unfold jumpToTop
  split
  · split
    · refine load_AppInv (AppInv_set_feed h ?_)
      have := h.1.1
      unfold idxOk at *
      omega
    · exact h
  · refine AppInv_set_article h ?_
    have := h.1.2
    unfold idxOk at *
    omega

theorem jumpToBottom_AppInv {app : App} (h : AppInv app) : AppInv (jumpToBottom app) := by
  unfold jumpToBottom
  split
  · split
    · refine load_AppInv (AppInv_set_feed h ?_)
      unfold idxOk
      omega
    · exact h
  · refine AppInv_set_article h ?_
    unfold idxOk
    omega

theorem executeSearch_AppInv {app : App} (h : AppInv app) :
    AppInv (executeSearch app) := by
  refine ⟨⟨h.1.1, ?_⟩, h.2⟩
  show idxOk 0 (executeSearch app).articles.length
  unfold idxOk
  omega

theorem clearSearch_AppInv {app : App} (h : AppInv app) :
    AppInv (clearSearch app) := by
  unfold clearSearch
  have h1 : AppInv { app with search_active := false, search_query := "" } := ⟨h.1, h.2⟩
  have h2 := load_AppInv h1
  exact ⟨h2.1, h2.2⟩

theorem toggleRead_AppInv {app : App} (h : AppInv app) :
    AppInv (toggleRead app) := by
  unfold toggleRead
  split
  · exact h
  · rename_i article harticle
    have h1 : AppInv { app with db := (toggleReadStatusM app.db article.id).1 } := by
      refine ⟨h.1, ?_⟩
      unfold feedsConsistent at *
      rw [show ({ app with db := (toggleReadStatusM app.db article.id).1 } : App).db =
        (toggleReadStatusM app.db article.id).1 from rfl]
      rw [getFeedsM_eq_of_feeds (toggleReadStatusM_feeds app.db article.id) none]
      exact h.2
    have h2 := load_AppInv h1
    exact ⟨h2.1, h2.2⟩

theorem toggleFavorite_AppInv {app : App} (h : AppInv app) :
    AppInv (toggleFavorite app) := by
  unfold toggleFavorite
  split
  · exact h
  · rename_i article harticle
    split
    · have h1 : AppInv { app with
          db := (removeFavoriteM app.db article.id).1,
          status_message := some "Removed from favorites" } := by
        refine ⟨h.1, ?_⟩
        show app.feeds = getFeedsM (removeFavoriteM app.db article.id).1 none
        rw [getFeedsM_eq_of_feeds (removeFavoriteM_feeds app.db article.id) none]
        exact h.2
      exact load_AppInv h1
    · have h1 : AppInv { app with
          db := (addFavoriteM app.db article.id).1,
          status_message := some "Added to favorites" } := by
        refine ⟨h.1, ?_⟩
        show app.feeds = getFeedsM (addFavoriteM app.db article.id).1 none
        rw [getFeedsM_eq_of_feeds (addFavoriteM_feeds app.db article.id) none]
        exact h.2
      exact load_AppInv h1

theorem processOneMsg_AppInv {app : App} (h : AppInv app) (msg : FetchMessage) :
    AppInv (processOneMsg msg app) := by
  cases msg with
  | started name => exact ⟨h.1, h.2⟩
  | feedDone name c err =>
    cases err
    · exact ⟨h.1, h.2⟩
    · exact ⟨h.1, h.2⟩
  | allDone t =>
    refine load_AppInv ⟨⟨?_, h.1.2⟩, rfl⟩
    rw [show getFeedsM app.db none = app.feeds from h.2.symm]
    exact h.1.1

theorem foldl_processOneMsg_AppInv (msgs : List FetchMessage) :
    ∀ app : App, AppInv app →
      AppInv (msgs.foldl (fun a m => processOneMsg m a) app) := by
  induction msgs with
  | nil => intro app h; exact h
  | cons m rest ih =>
    intro app h
    simp only [List.foldl_cons]
    exact ih _ (processOneMsg_AppInv h m)

theorem processFetchMessages_AppInv {app : App} (h : AppInv app)
    (msgs : List FetchMessage) : AppInv (processFetchMessages msgs app) := by
  unfold processFetchMessages
  split
  · exact foldl_processOneMsg_AppInv msgs app h
  · exact h

/-- Claim C1: from a reachable state (selection indices valid, cached feed
list consistent with the store), every operation of the render/poll loop —
cursor moves, article reload, search execution and clear, read/favorite
toggles, and the drain of refresh messages including the AllDone reload of
the feed list — again yields valid selection indices (the conclusion's
`AppInv` contains `selValid`: each cursor is a real index or 0 on an empty
list); and reloading the article list clamps the previous article index to
the new length rather than resetting it. -/
theorem C1_selection_invariant (app : App) (h : AppInv app) :
    AppInv (moveUp app) ∧ AppInv (moveDown app) ∧ AppInv (pageUp app) ∧
    AppInv (pageDown app) ∧ AppInv (halfPageUp app) ∧ AppInv (halfPageDown app) ∧
    AppInv (jumpToTop app) ∧ AppInv (jumpToBottom app) ∧
    AppInv (loadArticlesForSelectedFeed app) ∧ AppInv (executeSearch app) ∧
    AppInv (clearSearch app) ∧ AppInv (toggleRead app) ∧
    AppInv (toggleFavorite app) ∧
    (∀ msgs, AppInv (processFetchMessages msgs app)) ∧
    (app.selected_feed < app.feeds.length →
      (loadArticlesForSelectedFeed app).selected_article =
        (if (loadArticlesForSelectedFeed app).articles.isEmpty then 0
         else min app.selected_article
           ((loadArticlesForSelectedFeed app).articles.length - 1))) := by
  refine ⟨moveUp_AppInv h, moveDown_AppInv h, pageUp_AppInv h, pageDown_AppInv h,
    halfPageUp_AppInv h, halfPageDown_AppInv h, jumpToTop_AppInv h,
    jumpToBottom_AppInv h, load_AppInv h, executeSearch_AppInv h,
    clearSearch_AppInv h, toggleRead_AppInv h, toggleFavorite_AppInv h,
    fun msgs => processFetchMessages_AppInv h msgs, ?_⟩
  intro hlt
  unfold loadArticlesForSelectedFeed
  rw [List.getElem?_eq_getElem hlt]

/-- Witness for claim C1 at a concrete reachable state. -/
theorem C1_selection_invariant_witness :
    AppInv (mkApp dbC10) ∧ AppInv (moveDown (mkApp dbC10)) ∧
      AppInv (executeSearch (mkApp dbC10)) :=
  ⟨by decide,
   (C1_selection_invariant (mkApp dbC10) (by decide)).2.1,
   (C1_selection_invariant (mkApp dbC10) (by decide)).2.2.2.2.2.2.2.2.2.1⟩

/-! ### Claim C2: background refresh protocol -/

theorem addArticleM_eq (db : DBState) (a : Article) :
    addArticleM db a =
      (if (db.articles.any fun r =>
          r.feed_id == a.feed_id &&
            (match r.url, a.url with
             | some u1, some u2 => u1 == u2
             | _, _ => false)) = true
       then (db, none)
       else ({ db with
                articles := db.articles ++ [{ a with id := db.nextArticleId }],
                nextArticleId := db.nextArticleId + 1 },
             some db.nextArticleId)) := rfl

theorem addArticleM_length (db : DBState) (a : Article) :
    (addArticleM db a).1.articles.length =
      db.articles.length + (if (addArticleM db a).2.isSome then 1 else 0) := by
  rw [addArticleM_eq]
  split
  · simp
  · simp

theorem insertAll_length (fid : Int) (arts : List Article) : ∀ db : DBState,
    (insertAll db fid arts).1.articles.length =
      db.articles.length + (insertAll db fid arts).2 := by
  induction arts with
  | nil => intro db; rfl
  | cons a rest ih =>
    intro db
    rw [show insertAll db fid (a :: rest) =
        ((insertAll (addArticleM db { a with feed_id := fid }).1 fid rest).1,
         (if (addArticleM db { a with feed_id := fid }).2.isSome then 1 else 0) +
           (insertAll (addArticleM db { a with feed_id := fid }).1 fid rest).2)
      from rfl]
    rw [ih, addArticleM_length]
    omega

theorem fetchLoop_spec (fetch : Feed → Except String (List Article)) :
    ∀ (feeds : List Feed) (db : DBState),
      ∃ results : List (Nat × Option String),
        results.length = feeds.length ∧
        (fetchLoop fetch db feeds).2.2 =
          ((feeds.zip results).map (fun p =>
            [FetchMessage.started p.1.displayName,
             FetchMessage.feedDone p.1.displayName p.2.1 p.2.2])).join ∧
        (fetchLoop fetch db feeds).2.1 = (results.map Prod.fst).sum ∧
        (∀ p ∈ feeds.zip results,
          (∀ e, fetch p.1 = .error e → p.2 = (0, some e)) ∧
          (∀ arts, fetch p.1 = .ok arts → p.2.2 = none)) ∧
        (fetchLoop fetch db feeds).1.articles.length =
          db.articles.length + (results.map Prod.fst).sum := by
  intro feeds
  induction feeds with
  | nil =>
    intro db
    exact ⟨[], rfl, rfl, rfl, by simp, by rfl⟩
  | cons f rest ih =>
    intro db
    cases hf : fetch f with
    | ok arts =>
      obtain ⟨res, hlen, hmsgs, htot, hshape, hdb⟩ :=
        ih (insertAll db f.id arts).1
      have hfl : fetchLoop fetch db (f :: rest) =
          ((fetchLoop fetch (insertAll db f.id arts).1 rest).1,
           (insertAll db f.id arts).2 +
             (fetchLoop fetch (insertAll db f.id arts).1 rest).2.1,
           FetchMessage.started f.displayName ::
             FetchMessage.feedDone f.displayName (insertAll db f.id arts).2 none ::
               (fetchLoop fetch (insertAll db f.id arts).1 rest).2.2) := by
        rw [fetchLoop]
        rw [hf]
      refine ⟨((insertAll db f.id arts).2, none) :: res, by simp [hlen], ?_, ?_, ?_, ?_⟩
      · rw [hfl]
        simp only [List.zip_cons_cons, List.map_cons, List.join]
        rw [hmsgs]
        rfl
      · rw [hfl]
        simp only [List.map_cons, List.sum_cons]
        rw [htot]
      · intro p hp
        rcases List.mem_cons.mp hp with heq | hmem
        · subst heq
          constructor
          · intro e he
            rw [hf] at he
            exact Except.noConfusion he
          · intro arts2 _
            rfl
        · exact hshape p hmem
      · rw [hfl]
        simp only [List.map_cons, List.sum_cons]
        rw [hdb, insertAll_length]
        omega
    | error e =>
      obtain ⟨res, hlen, hmsgs, htot, hshape, hdb⟩ := ih db
      have hfl : fetchLoop fetch db (f :: rest) =
          ((fetchLoop fetch db rest).1,
           (fetchLoop fetch db rest).2.1,
           FetchMessage.started f.displayName ::
             FetchMessage.feedDone f.displayName 0 (some e) ::
               (fetchLoop fetch db rest).2.2) := by
        rw [fetchLoop]
        rw [hf]
      refine ⟨(0, some e) :: res, by simp [hlen], ?_, ?_, ?_, ?_⟩
      · rw [hfl]
        simp only [List.zip_cons_cons, List.map_cons, List.join]
        rw [hmsgs]
        rfl
      · rw [hfl]
        simp only [List.map_cons, List.sum_cons]
        rw [htot]
        omega
      · intro p hp
        rcases List.mem_cons.mp hp with heq | hmem
        · subst heq
          constructor
          · intro e2 he
            rw [hf] at he
            injection he with h
            rw [h]
          · intro arts2 harts
            rw [hf] at harts
            exact Except.noConfusion harts
        · exact hshape p hmem
      · rw [hfl]
        simp only [List.map_cons, List.sum_cons]
        rw [hdb]
        omega

/-- Claim C2: for every fetch oracle, store and snapshotted feed list, the
background task emits, in feed-list order, a `Started` then exactly one
`FeedDone` per feed (carrying `none` as error on fetch success, or the
error text with count 0 on failure, without aborting the remaining feeds),
followed by exactly one final `AllDone` whose count is the sum of the
per-feed counts — and that sum is exactly the number of article rows the
task's inserts added to the store. -/
theorem C2_fetch_protocol (fetch : Feed → Except String (List Article))
    (db : DBState) (feeds : List Feed) :
    ∃ results : List (Nat × Option String),
      results.length = feeds.length ∧
      (fetchTask fetch db feeds).2 =
        ((feeds.zip results).map (fun p =>
          [FetchMessage.started p.1.displayName,
           FetchMessage.feedDone p.1.displayName p.2.1 p.2.2])).join ++
          [FetchMessage.allDone (results.map Prod.fst).sum] ∧
      (fetchTask fetch db feeds).2.getLast? =
        some (FetchMessage.allDone (results.map Prod.fst).sum) ∧
      (∀ p ∈ feeds.zip results,
        (∀ e, fetch p.1 = .error e → p.2 = (0, some e)) ∧
        (∀ arts, fetch p.1 = .ok arts → p.2.2 = none)) ∧
      (fetchTask fetch db feeds).1.articles.length =
        db.articles.length + (results.map Prod.fst).sum := by
  obtain ⟨res, h1, h2, h3, h4, h5⟩ := fetchLoop_spec fetch feeds db
  refine ⟨res, h1, ?_, ?_, h4, h5⟩
  · unfold fetchTask
    rw [h2, h3]
  · unfold fetchTask
    rw [h3]
    simp

/-- Witness for claim C2: over the two-feed snapshot `feedsC2` (feed 1
fetches one new entry, feed 2 fails), the emitted trace is exactly
Started, FeedDone 1, Started, FeedDone 0 error, AllDone 1. -/
theorem C2_fetch_protocol_witness :
    (fetchTask fetchC2 dbC4 feedsC2).2 =
      [FetchMessage.started "F1", FetchMessage.feedDone "F1" 1 none,
       FetchMessage.started "F2",
       FetchMessage.feedDone "F2" 0 (some "connection refused"),
       FetchMessage.allDone 1] ∧
    ∃ results : List (Nat × Option String), results.length = feedsC2.length :=
  ⟨by decide,
   (C2_fetch_protocol fetchC2 dbC4 feedsC2).elim (fun r hr => ⟨r, hr.1⟩)⟩

end Rustfeed
